import Mathlib

/-!
# ChronoTerra globe script: verified model

Shallow embedding of `src/script.js` (the interactive 3D globe script):
the orientation/momentum drag engine, the per-frame animation step, the
zoom controller, the era texture table with its change handler, and the
texture loader's material mutations.  All real-number quantities are
modelled over `ℚ`; the numeric literals are exactly those of the source.
-/

namespace ChronoTerra

/-- Constant `rotationSpeed = 0.009` (script.js line 140). -/
def rotationSpeed : ℚ := 9 / 1000

/-- Constant `momentumDecay = 0.01` (script.js line 143). -/
def momentumDecay : ℚ := 1 / 100

/-- Constant `maxMomentum = 0.15` (script.js line 144). -/
def maxMomentum : ℚ := 15 / 100

/-- Constant `sensitivity = 0.009` (script.js line 145). -/
def sensitivity : ℚ := 9 / 1000

/-- The literal `0.001` in the auto-rotation guard (script.js line 209). -/
def autoRotateThreshold : ℚ := 1 / 1000

/-- The Orientation State of the globe: the mesh rotation (`earth.rotation.x/y`),
the momentum variables, the dragging flag and `previousMousePosition`. -/
structure OrientationState where
  rotationX : ℚ
  rotationY : ℚ
  momentumX : ℚ
  momentumY : ℚ
  isDragging : Bool
  prevX : ℚ
  prevY : ℚ
deriving DecidableEq

/-- The initial state: momentum zeroed, not dragging (script.js lines 138-142). -/
def initState : OrientationState :=
  { rotationX := 0, rotationY := 0, momentumX := 0, momentumY := 0,
    isDragging := false, prevX := 0, prevY := 0 }

/-- The `mousedown` handler (script.js lines 148-151). -/
def mousedown (s : OrientationState) (x y : ℚ) : OrientationState :=
  { s with isDragging := true, prevX := x, prevY := y }

/-- The `mousemove` handler (script.js lines 153-163): while dragging, clamp the
scaled delta into the momentum, advance the rotation immediately, and record
the pointer position. -/
def mousemove (s : OrientationState) (x y : ℚ) : OrientationState :=
  if s.isDragging then
    let deltaX := x - s.prevX
    let deltaY := y - s.prevY
    let mX := min maxMomentum (max (-maxMomentum) (deltaX * sensitivity))
    let mY := min maxMomentum (max (-maxMomentum) (deltaY * sensitivity))
    { s with momentumX := mX, momentumY := mY,
             rotationY := s.rotationY + mX,
             rotationX := s.rotationX + mY,
             prevX := x, prevY := y }
  else s

/-- The `mouseup` handler (script.js lines 165-167). -/
def mouseup (s : OrientationState) : OrientationState :=
  { s with isDragging := false }

/-- The `mouseleave` handler (script.js lines 169-171). -/
def mouseleave (s : OrientationState) : OrientationState :=
  { s with isDragging := false }

/-- The `touchstart` handler (script.js lines 174-178). -/
def touchstart (s : OrientationState) (x y : ℚ) : OrientationState :=
  { s with isDragging := true, prevX := x, prevY := y }

/-- The `touchmove` handler (script.js lines 180-191); its body is identical to
the `mousemove` handler's. -/
def touchmove (s : OrientationState) (x y : ℚ) : OrientationState :=
  if s.isDragging then
    let deltaX := x - s.prevX
    let deltaY := y - s.prevY
    let mX := min maxMomentum (max (-maxMomentum) (deltaX * sensitivity))
    let mY := min maxMomentum (max (-maxMomentum) (deltaY * sensitivity))
    { s with momentumX := mX, momentumY := mY,
             rotationY := s.rotationY + mX,
             rotationX := s.rotationX + mY,
             prevX := x, prevY := y }
  else s

/-- The `touchend` handler (script.js lines 193-195). -/
def touchend (s : OrientationState) : OrientationState :=
  { s with isDragging := false }

/-- One execution of the body of `animate` (script.js lines 198-215), minus
the render call: when not dragging, apply momentum to rotation, decay the
momentum, and add auto-rotation when the decayed momentum is small. -/
def animate (s : OrientationState) : OrientationState :=
  if s.isDragging then s
  else
    let s1 := { s with rotationY := s.rotationY + s.momentumX,
                       rotationX := s.rotationX + s.momentumY }
    let s2 := { s1 with momentumX := s1.momentumX * momentumDecay,
                        momentumY := s1.momentumY * momentumDecay }
    if |s2.momentumX| < autoRotateThreshold ∧ |s2.momentumY| < autoRotateThreshold then
      { s2 with rotationY := s2.rotationY + rotationSpeed }
    else s2

/-- Whether the auto-rotation branch (script.js lines 209-211) executes during
the frame run from state `s`: not dragging, and both momentum components are
below the threshold after this frame's decay. -/
def autoRotateFires (s : OrientationState) : Bool :=
  !s.isDragging &&
    decide (|s.momentumX * momentumDecay| < autoRotateThreshold) &&
    decide (|s.momentumY * momentumDecay| < autoRotateThreshold)

/-- A DOM event relevant to the Orientation State. -/
inductive Ev
  | mouseDown (x y : ℚ)
  | mouseMove (x y : ℚ)
  | mouseUp
  | mouseLeave
  | touchStart (x y : ℚ)
  | touchMove (x y : ℚ)
  | touchEnd
  | frame

/-- Dispatch one event to its handler. -/
def step (s : OrientationState) : Ev → OrientationState
  | Ev.mouseDown x y => mousedown s x y
  | Ev.mouseMove x y => mousemove s x y
  | Ev.mouseUp => mouseup s
  | Ev.mouseLeave => mouseleave s
  | Ev.touchStart x y => touchstart s x y
  | Ev.touchMove x y => touchmove s x y
  | Ev.touchEnd => touchend s
  | Ev.frame => animate s

/-- Run a sequence of events from a state. -/
def run (s : OrientationState) (es : List Ev) : OrientationState :=
  es.foldl step s

/-- Both momentum components are within `[-maxMomentum, maxMomentum]`. -/
def momentumBounded (s : OrientationState) : Prop :=
  |s.momentumX| ≤ maxMomentum ∧ |s.momentumY| ≤ maxMomentum

instance (s : OrientationState) : Decidable (momentumBounded s) := by
  unfold momentumBounded; infer_instance

/-- The clamp `Math.min(maxMomentum, Math.max(-maxMomentum, v))` is bounded. -/
lemma abs_clamp_le (v : ℚ) :
    |min maxMomentum (max (-maxMomentum) v)| ≤ maxMomentum := by
  rw [abs_le]
  exact ⟨le_min (by norm_num [maxMomentum]) (le_max_left _ _), min_le_left _ _⟩

/-- Multiplying by the decay factor keeps momentum bounded. -/
lemma abs_decay_le (m : ℚ) (h : |m| ≤ maxMomentum) :
    |m * momentumDecay| ≤ maxMomentum := by
  rw [abs_mul]
  have hd : |momentumDecay| = 1 / 100 := by norm_num [momentumDecay]
  rw [hd]
  have hm : (0 : ℚ) ≤ |m| := abs_nonneg m
  simp only [maxMomentum] at h ⊢
  nlinarith

/-- Every single event preserves the momentum bound. -/
lemma momentumBounded_step (s : OrientationState) (e : Ev)
    (h : momentumBounded s) : momentumBounded (step s e) := by
  obtain ⟨hx, hy⟩ := h
  cases e with
  | mouseDown x y => exact ⟨hx, hy⟩
  | mouseMove x y =>
      simp only [step, mousemove]
      split_ifs
      · exact ⟨abs_clamp_le _, abs_clamp_le _⟩
      · exact ⟨hx, hy⟩
  | mouseUp => exact ⟨hx, hy⟩
  | mouseLeave => exact ⟨hx, hy⟩
  | touchStart x y => exact ⟨hx, hy⟩
  | touchMove x y =>
      simp only [step, touchmove]
      split_ifs
      · exact ⟨abs_clamp_le _, abs_clamp_le _⟩
      · exact ⟨hx, hy⟩
  | touchEnd => exact ⟨hx, hy⟩
  | frame =>
      simp only [step, animate]
      split_ifs
      · exact ⟨hx, hy⟩
      · exact ⟨abs_decay_le _ hx, abs_decay_le _ hy⟩
      · exact ⟨abs_decay_le _ hx, abs_decay_le _ hy⟩

/-- C1: every drag-move (mouse or touch) processed while a drag is active
leaves `|momentumX| ≤ maxMomentum` and `|momentumY| ≤ maxMomentum`, and along
any event sequence (drag events and idle frames) the bound, once established,
holds after every event. -/
theorem momentum_clamped_invariant :
    (∀ (s : OrientationState) (x y : ℚ), s.isDragging = true →
        momentumBounded (mousemove s x y) ∧ momentumBounded (touchmove s x y)) ∧
    (∀ (s : OrientationState) (es : List Ev), momentumBounded s →
        momentumBounded (run s es)) := by
  constructor
  · intro s x y hd
    constructor
    · simp only [mousemove, hd, if_true]
      exact ⟨abs_clamp_le _, abs_clamp_le _⟩
    · simp only [touchmove, hd, if_true]
      exact ⟨abs_clamp_le _, abs_clamp_le _⟩
  · intro s es h
    induction es generalizing s with
    | nil => exact h
    | cons e es ih => exact ih _ (momentumBounded_step s e h)

/-- C1 witness: the bound holds concretely along a drag followed by idle frames. -/
theorem momentum_clamped_invariant_witness :
    momentumBounded initState ∧
    momentumBounded (run initState
      [Ev.mouseDown 0 0, Ev.mouseMove 100 0, Ev.mouseUp, Ev.frame, Ev.frame]) :=
  ⟨by norm_num [momentumBounded, initState, maxMomentum],
   momentum_clamped_invariant.2 initState _
     (by norm_num [momentumBounded, initState, maxMomentum])⟩

/-- C2: one idle frame (isDragging = false) advances `rotationY` by `momentumX`
and `rotationX` by `momentumY`, multiplies each momentum component by the
decay factor `0.01`, and adds the constant `rotationSpeed = 0.009` to
`rotationY` exactly when both decayed momenta are below `0.001` in absolute
value; no other Orientation State field changes. -/
theorem idle_frame_effect (s : OrientationState) (h : s.isDragging = false) :
    (animate s).rotationY = s.rotationY + s.momentumX +
      (if |s.momentumX * momentumDecay| < autoRotateThreshold ∧
          |s.momentumY * momentumDecay| < autoRotateThreshold
       then rotationSpeed else 0) ∧
    (animate s).rotationX = s.rotationX + s.momentumY ∧
    (animate s).momentumX = s.momentumX * momentumDecay ∧
    (animate s).momentumY = s.momentumY * momentumDecay ∧
    (animate s).isDragging = false ∧
    (animate s).prevX = s.prevX ∧
    (animate s).prevY = s.prevY := by
  simp only [animate, h, Bool.false_eq_true, if_false]
  split_ifs with hc
  · simp [h]
  · simp [h]

/-- C2 witness: the frame effect at the initial state (momentum zero, so the
auto-rotation branch fires there). -/
theorem idle_frame_effect_witness :
    initState.isDragging = false ∧
    ((animate initState).rotationY = initState.rotationY + initState.momentumX +
      (if |initState.momentumX * momentumDecay| < autoRotateThreshold ∧
          |initState.momentumY * momentumDecay| < autoRotateThreshold
       then rotationSpeed else 0) ∧
     (animate initState).momentumX = initState.momentumX * momentumDecay) :=
  ⟨rfl, (idle_frame_effect initState rfl).1, (idle_frame_effect initState rfl).2.2.1⟩

/-- The C3 scenario: momentum at the cap `0.15` on both axes, no drag active. -/
def c3start : OrientationState :=
  { rotationX := 0, rotationY := 0, momentumX := 15 / 100, momentumY := 15 / 100,
    isDragging := false, prevX := 0, prevY := 0 }

/-- C3 counterexample: from momentum `0.15` on both axes, auto-rotation already
fires during the second idle frame (whose incoming momentum is `0.0015`, which
decays to `1.5×10⁻⁵ < 0.001` before the threshold check), so it does not first
engage on the frame after the third decay. -/
theorem autoRotate_fires_second_frame :
    (animate c3start).momentumX = 3 / 2000 ∧
    (animate c3start).momentumY = 3 / 2000 ∧
    autoRotateFires c3start = false ∧
    autoRotateFires (animate c3start) = true := by
  norm_num [animate, autoRotateFires, c3start, momentumDecay, autoRotateThreshold,
    rotationSpeed, abs_of_nonneg, abs_of_pos]

/-- C3 amended: after 3 idle frames the momentum is `0.15 × 0.01³ = 1.5×10⁻⁷`,
below the `0.001` threshold; but auto-rotation first engages during the
*second* idle frame, not the fourth: the threshold is checked after the same
frame's decay, momentum after the first frame's decay is `0.0015` (not below
`0.001`), and after the second frame's decay it is `1.5×10⁻⁵ < 0.001`. -/
theorem momentum_decay_three_frames :
    (animate (animate (animate c3start))).momentumX = 3 / 20000000 ∧
    (animate (animate (animate c3start))).momentumY = 3 / 20000000 ∧
    (3 / 20000000 : ℚ) < autoRotateThreshold ∧
    autoRotateFires c3start = false ∧
    autoRotateFires (animate c3start) = true := by
  norm_num [animate, autoRotateFires, c3start, momentumDecay, autoRotateThreshold,
    rotationSpeed, abs_of_nonneg, abs_of_pos]

/-- Modelled on the spec's wording: the value `v` clamped into `[lo, hi]`. -/
def clamp (v lo hi : ℚ) : ℚ :=
  max lo (min v hi)

/-- The source's clamp `Math.min(maxMomentum, Math.max(-maxMomentum, v))`
agrees with the spec's `clamp(v, -maxMomentum, maxMomentum)`. -/
lemma clamp_eq_source (v : ℚ) :
    clamp v (-maxMomentum) maxMomentum = min maxMomentum (max (-maxMomentum) v) := by
  unfold clamp
  rw [max_min_distrib_left,
      max_eq_right (by norm_num [maxMomentum] : (-maxMomentum : ℚ) ≤ maxMomentum),
      min_comm]

/-- C4: a drag-move processed while dragging sets each momentum component to
the clamped scaled delta from the last pointer position, immediately adds
`momentumX` to `rotationY` and `momentumY` to `rotationX`, updates the stored
pointer position, and the touch handler acts exactly as the mouse handler. -/
theorem dragmove_effect (s : OrientationState) (x y : ℚ) (h : s.isDragging = true) :
    (mousemove s x y).momentumX
        = clamp ((x - s.prevX) * sensitivity) (-maxMomentum) maxMomentum ∧
    (mousemove s x y).momentumY
        = clamp ((y - s.prevY) * sensitivity) (-maxMomentum) maxMomentum ∧
    (mousemove s x y).rotationY = s.rotationY + (mousemove s x y).momentumX ∧
    (mousemove s x y).rotationX = s.rotationX + (mousemove s x y).momentumY ∧
    (mousemove s x y).prevX = x ∧
    (mousemove s x y).prevY = y ∧
    (mousemove s x y).isDragging = true ∧
    touchmove s x y = mousemove s x y := by
  simp [mousemove, touchmove, h, clamp_eq_source]

/-- A concrete mid-drag state for the C4 witness. -/
def c4state : OrientationState :=
  { rotationX := 0, rotationY := 0, momentumX := 0, momentumY := 0,
    isDragging := true, prevX := 0, prevY := 0 }

/-- C4 witness: a drag-move with delta `(100, 0)` yields
`momentumX = clamp(0.9, -0.15, 0.15) = 0.15`. -/
theorem dragmove_effect_witness :
    c4state.isDragging = true ∧
    (mousemove c4state 100 0).momentumX = 15 / 100 ∧
    clamp ((100 : ℚ) * sensitivity) (-maxMomentum) maxMomentum = 15 / 100 := by
  refine ⟨rfl, ?_, ?_⟩
  · have h := (dragmove_effect c4state 100 0 rfl).1
    rw [h]
    norm_num [clamp, c4state, sensitivity, maxMomentum, min_def, max_def]
  · norm_num [clamp, sensitivity, maxMomentum, min_def, max_def]

/-- C5: each drag-end handler (mouse-up, mouse-leave, touch-end) sets
`isDragging` to false and leaves momentum, rotation and the stored pointer
position untouched; the three handlers are identical. -/
theorem dragend_effect (s : OrientationState) :
    ((mouseup s).isDragging = false ∧
     (mouseup s).momentumX = s.momentumX ∧
     (mouseup s).momentumY = s.momentumY ∧
     (mouseup s).rotationX = s.rotationX ∧
     (mouseup s).rotationY = s.rotationY ∧
     (mouseup s).prevX = s.prevX ∧
     (mouseup s).prevY = s.prevY) ∧
    mouseleave s = mouseup s ∧
    touchend s = mouseup s :=
  ⟨⟨rfl, rfl, rfl, rfl, rfl, rfl, rfl⟩, rfl, rfl⟩

/-- The Zoom State: the `currentZoom` scalar and the applied `camera.position.z`. -/
structure ZoomState where
  currentZoom : ℚ
  cameraZ : ℚ
deriving DecidableEq

/-- Initial zoom (script.js lines 23-24): `camera.position.z = 1.8`,
`currentZoom = 1.8`. -/
def initZoom : ZoomState :=
  { currentZoom := 9 / 5, cameraZ := 9 / 5 }

/-- The zoom-in button click handler (script.js lines 33-36). -/
def zoomIn (z : ZoomState) : ZoomState :=
  let c := max (1 / 2) (z.currentZoom - 3 / 10)
  { currentZoom := c, cameraZ := c }

/-- The zoom-out button click handler (script.js lines 41-44). -/
def zoomOut (z : ZoomState) : ZoomState :=
  let c := min 3 (z.currentZoom + 3 / 10)
  { currentZoom := c, cameraZ := c }

/-- C6: zoomIn sets the distance to `max(0.5, distance - 0.3)` and zoomOut to
`min(3.0, distance + 0.3)`, each immediately applying the new distance to the
camera; saturation at the bounds is silent (the update is total). -/
theorem zoom_click_effect (z : ZoomState) :
    (zoomIn z).currentZoom = max (1 / 2) (z.currentZoom - 3 / 10) ∧
    (zoomIn z).cameraZ = (zoomIn z).currentZoom ∧
    (zoomOut z).currentZoom = min 3 (z.currentZoom + 3 / 10) ∧
    (zoomOut z).cameraZ = (zoomOut z).currentZoom :=
  ⟨rfl, rfl, rfl, rfl⟩

/-- A zoom button press. -/
inductive ZoomAction
  | zin
  | zout

/-- Dispatch one zoom button press. -/
def zoomStep (z : ZoomState) : ZoomAction → ZoomState
  | ZoomAction.zin => zoomIn z
  | ZoomAction.zout => zoomOut z

/-- Run a sequence of zoom button presses. -/
def runZoom (z : ZoomState) (acts : List ZoomAction) : ZoomState :=
  acts.foldl zoomStep z

/-- One zoom press keeps the distance in `[0.5, 3.0]`. -/
lemma zoomStep_bounds (z : ZoomState) (a : ZoomAction)
    (h1 : 1 / 2 ≤ z.currentZoom) (h2 : z.currentZoom ≤ 3) :
    1 / 2 ≤ (zoomStep z a).currentZoom ∧ (zoomStep z a).currentZoom ≤ 3 := by
  cases a with
  | zin =>
      simp only [zoomStep, zoomIn]
      exact ⟨le_max_left _ _, max_le (by norm_num) (by linarith)⟩
  | zout =>
      simp only [zoomStep, zoomOut]
      exact ⟨le_min (by norm_num) (by linarith), min_le_left _ _⟩

/-- C7: from any distance in `[0.5, 3.0]`, every sequence of zoom presses
keeps the distance in `[0.5, 3.0]`; and 20 consecutive zoom-out presses from
the initial distance `1.8` reach exactly `3.0` and stay there on a further
zoom-out. -/
theorem zoom_distance_bounds (z : ZoomState) (acts : List ZoomAction)
    (h : 1 / 2 ≤ z.currentZoom ∧ z.currentZoom ≤ 3) :
    (1 / 2 ≤ (runZoom z acts).currentZoom ∧ (runZoom z acts).currentZoom ≤ 3) ∧
    (runZoom initZoom (List.replicate 20 ZoomAction.zout)).currentZoom = 3 ∧
    (zoomOut (runZoom initZoom (List.replicate 20 ZoomAction.zout))).currentZoom = 3 := by
  refine ⟨?_, ?_, ?_⟩
  · induction acts generalizing z with
    | nil => exact h
    | cons a acts ih => exact ih _ (zoomStep_bounds z a h.1 h.2)
  · norm_num [runZoom, List.replicate, zoomStep, zoomOut, initZoom, min_def]
  · norm_num [runZoom, List.replicate, zoomStep, zoomOut, initZoom, min_def]

/-- C7 witness: the bounds hold concretely after a zoom-out then a zoom-in
from the initial distance. -/
theorem zoom_distance_bounds_witness :
    (1 / 2 ≤ initZoom.currentZoom ∧ initZoom.currentZoom ≤ 3) ∧
    (1 / 2 ≤ (runZoom initZoom [ZoomAction.zout, ZoomAction.zin]).currentZoom ∧
     (runZoom initZoom [ZoomAction.zout, ZoomAction.zin]).currentZoom ≤ 3) :=
  ⟨by norm_num [initZoom],
   (zoom_distance_bounds initZoom [ZoomAction.zout, ZoomAction.zin]
     (by norm_num [initZoom])).1⟩

/-- The mesh material's observable fields: base color, installed map,
re-evaluation flag. -/
structure Material where
  color : Nat
  map : Option String
  needsUpdate : Bool
deriving DecidableEq

/-- Synchronous part of `loadTexture` (script.js line 104): the placeholder
color `0x333333` is set before the fetch resolves. -/
def loadTextureSync (m : Material) : Material :=
  { m with color := 0x333333 }

/-- Success callback of `loadTexture` (script.js lines 108-112): install the
texture as the map and mark the material. -/
def loadTextureOnSuccess (m : Material) (texture : String) : Material :=
  { m with map := some texture, needsUpdate := true }

/-- Outcome of the error callback: whether the error was logged, and the
resulting material. -/
structure ErrorOutcome where
  logged : Bool
  material : Material

/-- Error callback of `loadTexture` (script.js lines 116-121): log, set the
fallback blue `0x3366cc`, mark the material; the map is not touched. -/
def loadTextureOnError (m : Material) : ErrorOutcome :=
  { logged := true,
    material := { m with color := 0x3366cc, needsUpdate := true } }

/-- A value produced by the JS property access `eraTextures[k]`: an own
string entry of the object literal, a value inherited from
`Object.prototype` (modelled abstractly by the property's name; every such
value is a function or an object, hence truthy), or `undefined`. -/
inductive JsValue
  | str (s : String)
  | inherited (name : String)
  | undef
deriving DecidableEq

/-- JS truthiness of a looked-up value: `undefined` is falsy, a string is
truthy iff non-empty, inherited functions/objects are truthy. -/
def truthy : JsValue → Bool
  | JsValue.str s => !s.isEmpty
  | JsValue.inherited _ => true
  | JsValue.undef => false

/-- The property names an object literal inherits from `Object.prototype`,
reachable by `obj[k]` although they are not own entries. -/
def protoKeys : List String :=
  ["constructor", "hasOwnProperty", "isPrototypeOf", "propertyIsEnumerable",
   "toLocaleString", "toString", "valueOf", "__proto__",
   "__defineGetter__", "__defineSetter__", "__lookupGetter__", "__lookupSetter__"]

/-- The JS property access `eraTextures[k]` on the object literal of
script.js lines 126-132: the five own entries first, then the prototype
chain (`Object.prototype`), then `undefined`. -/
def eraTextures (k : String) : JsValue :=
  if k = "modern" then JsValue.str "textures/earth_night.jpg"
  else if k = "ancient" then JsValue.str "textures/earth old.jpg"
  else if k = "prehistoric" then JsValue.str "dinoera.jpg"
  else if k = "dinosaurs" then JsValue.str "textures/clouds.png"
  else if k = "formation" then JsValue.str "textures/eartrh_bump.jpg"
  else if k ∈ protoKeys then JsValue.inherited k
  else JsValue.undef

/-- The `eraSelector` change handler (script.js lines 221-226): guard on the
truthiness of `eraTextures[selectedEra]`; when truthy, invoke `loadTexture`
(whose synchronous effect is the placeholder color) with the looked-up value;
otherwise do nothing.  The second component records the value passed to
`loadTexture`, `none` when it is not called. -/
def eraChange (m : Material) (selectedEra : String) : Material × Option JsValue :=
  let v := eraTextures selectedEra
  if truthy v then (loadTextureSync m, some v) else (m, none)

/-- C8 counterexample: the key `"constructor"` is not one of the five era
keys, yet the property access finds the inherited `Object.prototype`
property, the guard is truthy, and the handler calls `loadTexture` — the
material's color changes to the placeholder, so the key is not silently
ignored. -/
theorem era_inherited_key_not_ignored :
    truthy (eraTextures "constructor") = true ∧
    eraChange ⟨0xffffff, none, false⟩ "constructor"
      = (⟨0x333333, none, false⟩, some (JsValue.inherited "constructor")) := by
  refine ⟨?_, ?_⟩
  · rfl
  · simp [eraChange, eraTextures, protoKeys, truthy, loadTextureSync]

/-- C8 amended: the object literal's own entries are exactly the five era
keys with their fixed paths, and the change handler invokes the loader on
those five; but keys naming inherited `Object.prototype` properties also look
up truthy values and invoke the loader with the inherited value (setting the
placeholder color); only keys with neither an own entry nor an inherited
property are silently ignored with no state change and no loader call. -/
theorem era_lookup_with_prototype :
    (eraTextures "modern" = JsValue.str "textures/earth_night.jpg" ∧
     eraTextures "ancient" = JsValue.str "textures/earth old.jpg" ∧
     eraTextures "prehistoric" = JsValue.str "dinoera.jpg" ∧
     eraTextures "dinosaurs" = JsValue.str "textures/clouds.png" ∧
     eraTextures "formation" = JsValue.str "textures/eartrh_bump.jpg") ∧
    (∀ (m : Material) (k url : String), eraTextures k = JsValue.str url →
      url.isEmpty = false →
      eraChange m k = (loadTextureSync m, some (JsValue.str url))) ∧
    (∀ (m : Material) (k : String), k ∈ protoKeys →
      eraTextures k = JsValue.inherited k ∧
      eraChange m k = (loadTextureSync m, some (JsValue.inherited k))) ∧
    (∀ (m : Material) (k : String),
      k ≠ "modern" → k ≠ "ancient" → k ≠ "prehistoric" →
      k ≠ "dinosaurs" → k ≠ "formation" → k ∉ protoKeys →
      eraTextures k = JsValue.undef ∧ eraChange m k = (m, none)) := by
  refine ⟨⟨rfl, rfl, rfl, rfl, rfl⟩, ?_, ?_, ?_⟩
  · intro m k url hk hurl
    simp [eraChange, hk, truthy, hurl]
  · intro m k hk
    fin_cases hk <;>
      exact ⟨rfl, by simp [eraChange, eraTextures, protoKeys, truthy]⟩
  · intro m k h1 h2 h3 h4 h5 h6
    have he : eraTextures k = JsValue.undef := by
      simp [eraTextures, h1, h2, h3, h4, h5, h6]
    exact ⟨he, by simp [eraChange, he, truthy]⟩

/-- C8 witness: an era key invokes the loader with its path, an inherited
key invokes the loader with the inherited value, and a key with neither an
own entry nor an inherited property is ignored. -/
theorem era_lookup_with_prototype_witness :
    eraChange ⟨0xffffff, none, false⟩ "modern"
      = (loadTextureSync ⟨0xffffff, none, false⟩,
         some (JsValue.str "textures/earth_night.jpg")) ∧
    eraChange ⟨0xffffff, none, false⟩ "toString"
      = (loadTextureSync ⟨0xffffff, none, false⟩,
         some (JsValue.inherited "toString")) ∧
    eraChange ⟨0xffffff, none, false⟩ "unknown" = (⟨0xffffff, none, false⟩, none) :=
  ⟨era_lookup_with_prototype.2.1 ⟨0xffffff, none, false⟩ "modern" _
     era_lookup_with_prototype.1.1 (by decide),
   (era_lookup_with_prototype.2.2.1 ⟨0xffffff, none, false⟩ "toString"
     (by decide)).2,
   (era_lookup_with_prototype.2.2.2 ⟨0xffffff, none, false⟩ "unknown"
     (by decide) (by decide) (by decide) (by decide) (by decide) (by decide)).2⟩

/-- C9: `loadTexture` synchronously sets the placeholder color `0x333333`
(touching nothing else); the error callback then logs, sets the fallback blue
`0x3366cc`, marks `needsUpdate`, and installs no map. -/
theorem loadTexture_error_path (m : Material) :
    (loadTextureSync m).color = 0x333333 ∧
    (loadTextureSync m).map = m.map ∧
    (loadTextureSync m).needsUpdate = m.needsUpdate ∧
    (loadTextureOnError (loadTextureSync m)).logged = true ∧
    (loadTextureOnError (loadTextureSync m)).material.color = 0x3366cc ∧
    (loadTextureOnError (loadTextureSync m)).material.map = m.map ∧
    (loadTextureOnError (loadTextureSync m)).material.needsUpdate = true :=
  ⟨rfl, rfl, rfl, rfl, rfl, rfl, rfl⟩

/-- C10: the success callback installs the map and marks `needsUpdate`, but
never restores the base color: the placeholder `0x333333` set when the load
began is still the material's color after a successful load. -/
theorem loadTexture_success_keeps_placeholder (m : Material) (texture : String) :
    (loadTextureOnSuccess (loadTextureSync m) texture).color = 0x333333 ∧
    (loadTextureOnSuccess (loadTextureSync m) texture).map = some texture ∧
    (loadTextureOnSuccess (loadTextureSync m) texture).needsUpdate = true :=
  ⟨rfl, rfl, rfl⟩

end ChronoTerra
